import Mathlib

/-!
Verification of the study-buddy tool functions from `src/agent.py`.

Each of the six tool functions is a pure Python function returning a nested
dict.  We embed every returned dict as a Lean structure whose fields mirror
the dict keys, and each tool as a total Lean function.  Python floats that
occur (the hardcoded understanding score `0.75` and passing thresholds) are
exactly representable, so we model them as rationals.  The optional
`weak_concepts` key of `check_understanding` is modelled as an `Option`
field, `none` meaning the key is absent from the returned dict.
-/

namespace StudyBuddy

/-- Inner dict `student_profile` returned by `get_student_info`. -/
structure StudentProfile where
  grade_level : String
  subject : String
  exam_date : String
  current_knowledge : String
  profile_complete : Bool
deriving Repr, DecidableEq

/-- Return value of `get_student_info`. -/
structure GetStudentInfoResult where
  student_profile : StudentProfile
  next_step : String
deriving Repr, DecidableEq

/-- Embedding of `get_student_info` (src/agent.py lines 93-115). -/
def get_student_info (grade_level subject exam_date current_knowledge : String) :
    GetStudentInfoResult :=
  { student_profile :=
      { grade_level := grade_level
        subject := subject
        exam_date := exam_date
        current_knowledge := current_knowledge
        profile_complete := true }
    next_step := "research_subject" }

/-- Return value of `research_subject`. -/
structure ResearchSubjectResult where
  subject_overview : String
  key_concepts : List String
  difficulty_areas : List String
  next_step : String
deriving Repr, DecidableEq

/-- Embedding of `research_subject` (src/agent.py lines 118-140). -/
def research_subject (subject grade_level : String) : ResearchSubjectResult :=
  { subject_overview :=
      "Research completed for " ++ subject ++ " at " ++ grade_level ++ " level"
    key_concepts :=
      [ "Fundamental principles"
      , "Core theories and applications"
      , "Problem-solving techniques"
      , "Common exam topics" ]
    difficulty_areas :=
      [ "Abstract concepts", "Mathematical applications", "Memorization requirements" ]
    next_step := "create_study_sections" }

/-- One element of the `study_sections` list built by `create_study_sections`. -/
structure StudySection where
  section_number : Nat
  title : String
  estimated_time : String
  prerequisites : String
  learning_objectives : List String
  status : String
deriving Repr, DecidableEq

/-- Return value of `create_study_sections`. -/
structure CreateStudySectionsResult where
  study_sections : List StudySection
  total_sections : Nat
  current_section : Nat
  next_step : String
deriving Repr, DecidableEq

/-- The section record appended for the 1-based index `i` and concept
`concept` in the loop of `create_study_sections` (src/agent.py lines
156-164). -/
def mkStudySection (i : Nat) (concept : String) : StudySection :=
  { section_number := i
    title := concept
    estimated_time := "3-5 study sessions"
    prerequisites :=
      if i > 1 then
        "Understanding of previous " ++ toString (i - 1) ++ " sections"
      else
        "Basic foundational knowledge"
    learning_objectives :=
      [ "Master " ++ concept
      , "Apply " ++ concept ++ " to problems"
      , "Explain " ++ concept ++ " clearly" ]
    status := "not_started" }

/-- Embedding of `create_study_sections` (src/agent.py lines 143-171).
`enumerate(key_concepts, 1)` pairs each concept with its 1-based index. -/
def create_study_sections (subject : String) (key_concepts : List String)
    (exam_date : String) : CreateStudySectionsResult :=
  let sections := key_concepts.enum.map (fun p => mkStudySection (p.1 + 1) p.2)
  { study_sections := sections
    total_sections := sections.length
    current_section := 1
    next_step := "teach_section" }

/-- Inner dict `section_taught` returned by `teach_section`. -/
structure SectionTaught where
  number : Int
  title : String
  explanations_provided : Bool
  examples_given : Bool
  grade_appropriate : String
deriving Repr, DecidableEq

/-- Return value of `teach_section`. -/
structure TeachSectionResult where
  section_taught : SectionTaught
  teaching_summary : String
  next_step : String
deriving Repr, DecidableEq

/-- Embedding of `teach_section` (src/agent.py lines 174-196). -/
def teach_section (section_number : Int) (section_title student_grade : String) :
    TeachSectionResult :=
  { section_taught :=
      { number := section_number
        title := section_title
        explanations_provided := true
        examples_given := true
        grade_appropriate := student_grade }
    teaching_summary :=
      "Completed teaching " ++ section_title ++
        " with explanations and examples suitable for " ++ student_grade
    next_step := "quiz_section" }

/-- Inner dict `quiz_administered` returned by `quiz_section`.  The dict key
`section` is a Lean keyword, so the field is named `section_ref`. -/
structure QuizAdministered where
  section_ref : Int
  title : String
  difficulty : String
  questions_asked : Nat
  answers_received : Bool
deriving Repr, DecidableEq

/-- Return value of `quiz_section`. -/
structure QuizSectionResult where
  quiz_administered : QuizAdministered
  next_step : String
deriving Repr, DecidableEq

/-- The Python default value of the `difficulty_level` parameter of
`quiz_section` (src/agent.py line 199). -/
def quiz_section_default_difficulty : String := "medium"

/-- Embedding of `quiz_section` (src/agent.py lines 199-220); a call that
omits `difficulty_level` passes `quiz_section_default_difficulty`. -/
def quiz_section (section_number : Int) (section_title difficulty_level : String) :
    QuizSectionResult :=
  { quiz_administered :=
      { section_ref := section_number
        title := section_title
        difficulty := difficulty_level
        questions_asked := 5
        answers_received := true }
    next_step := "check_understanding" }

/-- Return value of `check_understanding`.  A `weak_concepts` value of
`none` means the returned dict has no `weak_concepts` key. -/
structure CheckUnderstandingResult where
  understanding_sufficient : Bool
  score : ℚ
  next_action : String
  weak_concepts : Option (List String)
  message : String
deriving Repr, DecidableEq

/-- The hardcoded comprehension score of `check_understanding`
(src/agent.py line 237). -/
def understanding_level : ℚ := 0.75

/-- The Python default value of the `passing_threshold` parameter of
`check_understanding` (src/agent.py line 223). -/
def check_understanding_default_threshold : ℚ := 0.8

/-- Embedding of `check_understanding` (src/agent.py lines 223-253).  The
`quiz_results` dict is never inspected, so the argument is polymorphic; a
call that omits `passing_threshold` passes
`check_understanding_default_threshold`. -/
def check_understanding {α : Type} (quiz_results : α) (passing_threshold : ℚ) :
    CheckUnderstandingResult :=
  if understanding_level ≥ passing_threshold then
    { understanding_sufficient := true
      score := understanding_level
      next_action := "proceed_to_next_section"
      weak_concepts := none
      message := "Great job! You\x27ve mastered this section. Let\x27s move to the next one." }
  else
    { understanding_sufficient := false
      score := understanding_level
      next_action := "review_and_reteach"
      weak_concepts := some ["Concept A", "Concept B"]
      message := "Let\x27s review some concepts you\x27re still working on, then try the quiz again." }

/-- C1: for every `quiz_results` dict and every `passing_threshold`,
`check_understanding` returns `understanding_sufficient = true` exactly when
`passing_threshold ≤ 0.75` and `false` exactly when
`passing_threshold > 0.75`, and the returned value does not depend on the
contents of `quiz_results`. -/
theorem check_understanding_threshold_iff {α β : Type} (quiz_results : α)
    (other_results : β) (passing_threshold : ℚ) :
    ((check_understanding quiz_results passing_threshold).understanding_sufficient = true ↔
      passing_threshold ≤ 0.75) ∧
    ((check_understanding quiz_results passing_threshold).understanding_sufficient = false ↔
      passing_threshold > 0.75) ∧
    check_understanding quiz_results passing_threshold =
      check_understanding other_results passing_threshold := by
  refine ⟨?_, ?_, rfl⟩ <;>
  · unfold check_understanding
    split_ifs with hc <;> simp [understanding_level] at hc ⊢ <;> linarith

/-- C4: `research_subject` returns the same fixed 4-element `key_concepts`
list and the same fixed 3-element `difficulty_areas` list regardless of its
arguments. -/
theorem research_subject_constant_lists (subject grade_level : String) :
    (research_subject subject grade_level).key_concepts =
      [ "Fundamental principles"
      , "Core theories and applications"
      , "Problem-solving techniques"
      , "Common exam topics" ] ∧
    (research_subject subject grade_level).difficulty_areas =
      [ "Abstract concepts", "Mathematical applications", "Memorization requirements" ] ∧
    (research_subject subject grade_level).key_concepts.length = 4 ∧
    (research_subject subject grade_level).difficulty_areas.length = 3 :=
  ⟨rfl, rfl, rfl, rfl⟩

/-- C5: `get_student_info` echoes its four arguments unchanged into the
profile, sets `profile_complete = true`, and sets
`next_step = "research_subject"`. -/
theorem get_student_info_echoes (grade_level subject exam_date current_knowledge : String) :
    (get_student_info grade_level subject exam_date current_knowledge).student_profile.grade_level
      = grade_level ∧
    (get_student_info grade_level subject exam_date current_knowledge).student_profile.subject
      = subject ∧
    (get_student_info grade_level subject exam_date current_knowledge).student_profile.exam_date
      = exam_date ∧
    (get_student_info grade_level subject exam_date current_knowledge).student_profile.current_knowledge
      = current_knowledge ∧
    (get_student_info grade_level subject exam_date current_knowledge).student_profile.profile_complete
      = true ∧
    (get_student_info grade_level subject exam_date current_knowledge).next_step
      = "research_subject" :=
  ⟨rfl, rfl, rfl, rfl, rfl, rfl⟩

/-- C7: `quiz_section` echoes the section number and title, reports the given
difficulty, always claims 5 questions asked and answers received, and the
omitted-argument default difficulty is `"medium"`. -/
theorem quiz_section_fixed_acknowledgment (section_number : Int)
    (section_title difficulty_level : String) :
    quiz_section section_number section_title difficulty_level =
      { quiz_administered :=
          { section_ref := section_number
            title := section_title
            difficulty := difficulty_level
            questions_asked := 5
            answers_received := true }
        next_step := "check_understanding" } ∧
    quiz_section_default_difficulty = "medium" :=
  ⟨rfl, rfl⟩

/-- C8: `create_study_sections` on an empty concept list does not fail and
returns the degenerate result with `study_sections = []`,
`total_sections = 0` and `current_section = 1`. -/
theorem create_study_sections_empty_ok (subject exam_date : String) :
    create_study_sections subject [] exam_date =
      { study_sections := []
        total_sections := 0
        current_section := 1
        next_step := "teach_section" } :=
  rfl

/-- C2: `create_study_sections` returns as many sections as input concepts,
with `section_number` strictly increasing from 1 (the section at 0-based
index `i` has `section_number = i + 1`), `total_sections` equal to that
length, and `current_section = 1`. -/
theorem create_study_sections_shape (subject : String) (key_concepts : List String)
    (exam_date : String) :
    (create_study_sections subject key_concepts exam_date).study_sections.length
      = key_concepts.length ∧
    (create_study_sections subject key_concepts exam_date).total_sections
      = key_concepts.length ∧
    (create_study_sections subject key_concepts exam_date).current_section = 1 ∧
    ∀ i : Nat,
      ∀ h : i < (create_study_sections subject key_concepts exam_date).study_sections.length,
      ((create_study_sections subject key_concepts exam_date).study_sections.get
        ⟨i, h⟩).section_number = i + 1 := by
  refine ⟨by simp [create_study_sections], by simp [create_study_sections], rfl, ?_⟩
  intro i h
  simp [create_study_sections, List.get_eq_getElem, List.getElem_map, List.getElem_enum,
    mkStudySection]

/-- Witness for C2 at a concrete input: the second section of the Biology
plan has `section_number = 2`. -/
theorem create_study_sections_shape_witness :
    ((create_study_sections "Biology" ["Cells", "Genetics"] "2024-06-01").study_sections.get
      ⟨1, by decide⟩).section_number = 2 :=
  (create_study_sections_shape "Biology" ["Cells", "Genetics"] "2024-06-01").2.2.2 1 (by decide)

/-- C3: the section at 0-based index 0 has prerequisites
`"Basic foundational knowledge"` and the section at 0-based index `i > 0`
(1-based section `i + 1`) has prerequisites
`"Understanding of previous i sections"`; in particular the Biology example
yields exactly those two prerequisite strings. -/
theorem create_study_sections_prerequisites (subject : String) (key_concepts : List String)
    (exam_date : String) :
    (∀ i : Nat,
      ∀ h : i < (create_study_sections subject key_concepts exam_date).study_sections.length,
      ((create_study_sections subject key_concepts exam_date).study_sections.get
        ⟨i, h⟩).prerequisites =
          if i = 0 then "Basic foundational knowledge"
          else "Understanding of previous " ++ toString i ++ " sections") ∧
    (create_study_sections "Biology" ["Cells", "Genetics"] "2024-06-01").study_sections.map
        StudySection.prerequisites =
      ["Basic foundational knowledge", "Understanding of previous 1 sections"] := by
  constructor
  · intro i h
    cases i with
    | zero =>
      simp [create_study_sections, List.get_eq_getElem, List.getElem_map, List.getElem_enum,
        mkStudySection]
    | succ k =>
      simp [create_study_sections, List.get_eq_getElem, List.getElem_map, List.getElem_enum,
        mkStudySection]
  · decide

/-- Witness for C3 at a concrete input: the second Biology section's
prerequisites string. -/
theorem create_study_sections_prerequisites_witness :
    ((create_study_sections "Biology" ["Cells", "Genetics"] "2024-06-01").study_sections.get
      ⟨1, by decide⟩).prerequisites = "Understanding of previous 1 sections" :=
  ((create_study_sections_prerequisites "Biology" ["Cells", "Genetics"] "2024-06-01").1 1
    (by decide)).trans (by decide)

/-- C6: whenever `passing_threshold > 0.75` (the `{}`-with-`0.9` example
included), `check_understanding` returns `understanding_sufficient = false`,
`score = 0.75`, `next_action = "review_and_reteach"` and
`weak_concepts = ["Concept A", "Concept B"]`, for every `quiz_results`. -/
theorem check_understanding_insufficient {α : Type} (quiz_results : α)
    (passing_threshold : ℚ) (h : passing_threshold > 0.75) :
    check_understanding quiz_results passing_threshold =
      { understanding_sufficient := false
        score := 0.75
        next_action := "review_and_reteach"
        weak_concepts := some ["Concept A", "Concept B"]
        message := "Let\x27s review some concepts you\x27re still working on, then try the quiz again." } := by
  unfold check_understanding
  split_ifs with hc
  · exfalso
    simp [understanding_level] at hc
    linarith
  · rfl

/-- Witness for C6: the spec example `check_understanding({}, 0.9)` with the
empty dict modelled as an empty association list. -/
theorem check_understanding_insufficient_witness :
    (0.9 : ℚ) > 0.75 ∧
    check_understanding ([] : List (String × String)) (0.9 : ℚ) =
      { understanding_sufficient := false
        score := 0.75
        next_action := "review_and_reteach"
        weak_concepts := some ["Concept A", "Concept B"]
        message := "Let\x27s review some concepts you\x27re still working on, then try the quiz again." } :=
  ⟨by norm_num, check_understanding_insufficient ([] : List (String × String)) 0.9 (by norm_num)⟩

/-- C10: whenever `passing_threshold ≤ 0.75`, `check_understanding` returns a
dict with no `weak_concepts` key (modelled as `none`) and exactly
`understanding_sufficient = true`, `score = 0.75`,
`next_action = "proceed_to_next_section"` and the fixed message string. -/
theorem check_understanding_sufficient_no_weak {α : Type} (quiz_results : α)
    (passing_threshold : ℚ) (h : passing_threshold ≤ 0.75) :
    check_understanding quiz_results passing_threshold =
      { understanding_sufficient := true
        score := 0.75
        next_action := "proceed_to_next_section"
        weak_concepts := none
        message := "Great job! You\x27ve mastered this section. Let\x27s move to the next one." } := by
  unfold check_understanding
  split_ifs with hc
  · rfl
  · exfalso
    simp [understanding_level] at hc
    linarith

/-- Witness for C10 at `passing_threshold = 0.5`. -/
theorem check_understanding_sufficient_no_weak_witness :
    (0.5 : ℚ) ≤ 0.75 ∧
    check_understanding ([] : List (String × String)) (0.5 : ℚ) =
      { understanding_sufficient := true
        score := 0.75
        next_action := "proceed_to_next_section"
        weak_concepts := none
        message := "Great job! You\x27ve mastered this section. Let\x27s move to the next one." } :=
  ⟨by norm_num, check_understanding_sufficient_no_weak ([] : List (String × String)) 0.5 (by norm_num)⟩

/-- C9: each of the six tool functions is deterministic — equal arguments
give equal results (each is a pure function of its explicit arguments, with
no shared mutable state or dependence on call order). -/
theorem tools_deterministic :
    (∀ a b c d a2 b2 c2 d2 : String, a = a2 → b = b2 → c = c2 → d = d2 →
      get_student_info a b c d = get_student_info a2 b2 c2 d2) ∧
    (∀ a b a2 b2 : String, a = a2 → b = b2 →
      research_subject a b = research_subject a2 b2) ∧
    (∀ (a : String) (b : List String) (c : String) (a2 : String) (b2 : List String)
      (c2 : String), a = a2 → b = b2 → c = c2 →
      create_study_sections a b c = create_study_sections a2 b2 c2) ∧
    (∀ (a : Int) (b c : String) (a2 : Int) (b2 c2 : String), a = a2 → b = b2 → c = c2 →
      teach_section a b c = teach_section a2 b2 c2) ∧
    (∀ (a : Int) (b c : String) (a2 : Int) (b2 c2 : String), a = a2 → b = b2 → c = c2 →
      quiz_section a b c = quiz_section a2 b2 c2) ∧
    (∀ (α : Type) (a a2 : α) (b b2 : ℚ), a = a2 → b = b2 →
      check_understanding a b = check_understanding a2 b2) := by
  refine ⟨?_, ?_, ?_, ?_, ?_, ?_⟩ <;> intros <;> subst_vars <;> rfl

/-- Witness for C9: determinism instantiated at concrete arguments for each
of the six tools. -/
theorem tools_deterministic_witness :
    get_student_info "9th grade" "Biology" "2024-06-01" "beginner" =
      get_student_info "9th grade" "Biology" "2024-06-01" "beginner" ∧
    research_subject "Biology" "9th grade" = research_subject "Biology" "9th grade" ∧
    create_study_sections "Biology" ["Cells"] "2024-06-01" =
      create_study_sections "Biology" ["Cells"] "2024-06-01" ∧
    teach_section 1 "Cells" "9th grade" = teach_section 1 "Cells" "9th grade" ∧
    quiz_section 1 "Cells" "medium" = quiz_section 1 "Cells" "medium" ∧
    check_understanding ([] : List (String × String)) (0.8 : ℚ) =
      check_understanding ([] : List (String × String)) (0.8 : ℚ) :=
  ⟨tools_deterministic.1 "9th grade" "Biology" "2024-06-01" "beginner"
      "9th grade" "Biology" "2024-06-01" "beginner" rfl rfl rfl rfl,
    tools_deterministic.2.1 "Biology" "9th grade" "Biology" "9th grade" rfl rfl,
    tools_deterministic.2.2.1 "Biology" ["Cells"] "2024-06-01"
      "Biology" ["Cells"] "2024-06-01" rfl rfl rfl,
    tools_deterministic.2.2.2.1 1 "Cells" "9th grade" 1 "Cells" "9th grade" rfl rfl rfl,
    tools_deterministic.2.2.2.2.1 1 "Cells" "medium" 1 "Cells" "medium" rfl rfl rfl,
    tools_deterministic.2.2.2.2.2 (List (String × String)) [] [] 0.8 0.8 rfl rfl⟩

end StudyBuddy
